import Mathlib

/-!
Shallow embedding of the Aqua Clock regulation core (ColumnManager.h,
TankManager.h, RangeUtil.h, faults.h) and proofs about it.

Machine integers are modelled as `Nat` with explicit `% 2 ^ 16` where the C++
code performs `uint16_t` arithmetic; the narrowing conversion
`int16_t delta = uint16 - uint16` is modelled by `int16OfInt` (subtraction in
`Int`, then reduction into `[-32768, 32767]`).  `elapsedMillis` counters are
modelled as `Nat` fields that each `Update` advances by a caller-supplied
`dt` at entry, and that assignments reset, matching the single-threaded
read/reset use in the source.  The SX1509 output pins are modelled by the
last commanded levels (`true` = HIGH); the `pin >= 0` guards in the source
are always true because the pins are `uint8_t`, so writes are unconditional
except for the `FAULT_ACTIVE(FAULT_SX1509_IO_EXPANDER_INIT_FAIL)` guards,
which are modelled by the `expander_fault` flag.
-/

set_option autoImplicit false

/-- Fault bit positions from faults.h. -/
def FAULT_TANK_FILL_TIMEOUT : Nat := 16

/-- Fault bit positions from faults.h. -/
def FAULT_TANK_LEVEL_SENSE_FAIL : Nat := 17

/-- Macro `FAULT_SET(x)`: set bit `x` in the `system_faults` bitmap. -/
def FAULT_SET (x : Nat) (faults : Nat) : Nat := faults ||| (1 <<< x)

/-- Macro `FAULT_ACTIVE(x)`: test bit `x` of the `system_faults` bitmap. -/
def FAULT_ACTIVE (x : Nat) (faults : Nat) : Bool := faults.testBit x

/-- The `COLUMN_STATE_TYPE_T` enumeration from ColumnManager.h. -/
inductive COLUMN_STATE_TYPE_T where
  | COLUMN_IDLE
  | COLUMN_DRAIN_ACTIVE
  | COLUMN_DRAIN_SETTLE
  | COLUMN_FILL_ACTIVE
  | COLUMN_FILL_SETTLE
  | COLUMN_MANUAL_DRAIN
  | COLUMN_MANUAL_FILL
  | COLUMN_ERROR_STATE
deriving DecidableEq, Repr

export COLUMN_STATE_TYPE_T (COLUMN_IDLE COLUMN_DRAIN_ACTIVE COLUMN_DRAIN_SETTLE
  COLUMN_FILL_ACTIVE COLUMN_FILL_SETTLE COLUMN_MANUAL_DRAIN COLUMN_MANUAL_FILL
  COLUMN_ERROR_STATE)

/-- The `CONTROL_ERROR_STATE_TYPE_T` enumeration from ColumnManager.h. -/
inductive CONTROL_ERROR_STATE_TYPE_T where
  | CONTROL_ERROR_DEADBAND
  | CONTROL_ERROR_POSITIVE
  | CONTROL_ERROR_NEGATIVE
deriving DecidableEq, Repr

export CONTROL_ERROR_STATE_TYPE_T (CONTROL_ERROR_DEADBAND CONTROL_ERROR_POSITIVE
  CONTROL_ERROR_NEGATIVE)

/-- The immutable-after-construction configuration fields of a `ColumnManager`:
none of these has a setter in the source.  Limits come from the constructor;
the remaining values are the field initializers. -/
structure ColumnConfig where
  elevation_lower_limit : Nat := 50
  elevation_upper_limit : Nat := 305
  setpoint_deadband : Nat := 4
  drain_dwell_period : Nat := 1000
  fill_dwell_period : Nat := 1000
  max_column_drain_period : Nat := 60000
  max_column_fill_period : Nat := 60000
deriving Repr

/-- The mutable state of a `ColumnManager`.  `feed_valve`/`drain_valve` are the
last levels commanded on the two actuator pins (`true` = HIGH). -/
structure ColumnManager where
  setpoint_mm : Nat := 150
  elevation_mm : Nat := 150
  regulator_enable : Bool := false
  state : COLUMN_STATE_TYPE_T := COLUMN_IDLE
  time_in_current_state : Nat := 0
  manual_drain_period : Nat := 2000
  manual_fill_period : Nat := 2000
  request_manual_fill : Bool := false
  request_manual_drain : Bool := false
  control_error_state : CONTROL_ERROR_STATE_TYPE_T := CONTROL_ERROR_DEADBAND
  feed_valve : Bool := false
  drain_valve : Bool := false
deriving Repr

/-- Narrowing of an integer to `int16_t` (reduction modulo `2 ^ 16` into
`[-32768, 32767]`), as performed by `int16_t delta = _elevation_mm - _setpoint_mm`. -/
def int16OfInt (z : Int) : Int :=
  if z % 65536 < 32768 then z % 65536 else z % 65536 - 65536

/-- Method `ColumnManager::control_loop_update`: classify the elevation error against
the setpoint deadband. -/
def control_loop_update (elevation_mm setpoint_mm setpoint_deadband : Nat) :
    CONTROL_ERROR_STATE_TYPE_T :=
  if (int16OfInt ((elevation_mm : Int) - (setpoint_mm : Int))).natAbs ≤ setpoint_deadband then
    CONTROL_ERROR_DEADBAND
  else if int16OfInt ((elevation_mm : Int) - (setpoint_mm : Int)) > 0 then
    CONTROL_ERROR_POSITIVE
  else CONTROL_ERROR_NEGATIVE

/-- Method `ColumnManager::start_filling`: feed pin HIGH, drain pin LOW.  The source
does not guard this routine with the expander-fault check. -/
def start_filling (s : ColumnManager) : ColumnManager :=
  { s with feed_valve := true, drain_valve := false }

/-- Method `ColumnManager::start_draining`: feed pin LOW, drain pin HIGH, skipped
entirely when the SX1509 init fault is active. -/
def start_draining (expander_fault : Bool) (s : ColumnManager) : ColumnManager :=
  if expander_fault then s else { s with feed_valve := false, drain_valve := true }

/-- Method `ColumnManager::stop_flows`: both pins LOW, skipped entirely when the
SX1509 init fault is active. -/
def stop_flows (expander_fault : Bool) (s : ColumnManager) : ColumnManager :=
  if expander_fault then s else { s with feed_valve := false, drain_valve := false }

/-- The setpoint clamp at the top of `ColumnManager::Update`. -/
def clampSetpoint (cfg : ColumnConfig) (setpoint_mm : Nat) : Nat :=
  let v := if setpoint_mm < cfg.elevation_lower_limit then cfg.elevation_lower_limit
           else setpoint_mm
  if v > cfg.elevation_upper_limit then cfg.elevation_upper_limit else v

/-- The entry section of `ColumnManager::Update`: advance the `elapsedMillis`
counter by the wall time `dt` since the previous call, store the (uint16)
arguments and clamp the setpoint. -/
def applyInputs (cfg : ColumnConfig) (s : ColumnManager)
    (current_elevation_mm setpoint_mm dt : Nat) : ColumnManager :=
  { s with time_in_current_state := s.time_in_current_state + dt,
           elevation_mm := current_elevation_mm % 65536,
           setpoint_mm := clampSetpoint cfg (setpoint_mm % 65536) }

/-- The manual-request section of `ColumnManager::Update`: pending requests
preempt the state machine (fill checked first, then drain). -/
def applyManualRequests (s : ColumnManager) : ColumnManager :=
  let s := if s.request_manual_fill then
             { s with request_manual_fill := false, state := COLUMN_MANUAL_FILL,
                      time_in_current_state := 0 }
           else s
  if s.request_manual_drain then
    { s with request_manual_drain := false, state := COLUMN_MANUAL_DRAIN,
             time_in_current_state := 0 }
  else s

/-- The `_control_error_state = control_loop_update()` line of
`ColumnManager::Update`. -/
def applyControlError (cfg : ColumnConfig) (s : ColumnManager) : ColumnManager :=
  { s with control_error_state :=
      control_loop_update s.elevation_mm s.setpoint_mm cfg.setpoint_deadband }

/-- The `switch (_state)` section of `ColumnManager::Update`. -/
def runColumnStateMachine (cfg : ColumnConfig) (expander_fault : Bool)
    (s : ColumnManager) : ColumnManager × Bool :=
  match s.state with
  | COLUMN_IDLE =>
      let s := stop_flows expander_fault s
      if s.regulator_enable then
        if s.control_error_state = CONTROL_ERROR_POSITIVE then
          ({ s with state := COLUMN_FILL_ACTIVE, time_in_current_state := 0 }, false)
        else if s.control_error_state = CONTROL_ERROR_NEGATIVE then
          ({ s with state := COLUMN_DRAIN_ACTIVE, time_in_current_state := 0 }, false)
        else (s, false)
      else (s, false)
  | COLUMN_DRAIN_ACTIVE =>
      if !s.regulator_enable then
        ({ s with state := COLUMN_DRAIN_SETTLE, time_in_current_state := 0 }, false)
      else if s.control_error_state ≠ CONTROL_ERROR_NEGATIVE then
        ({ (stop_flows expander_fault s) with
           state := COLUMN_DRAIN_SETTLE, time_in_current_state := 0 }, false)
      else if s.time_in_current_state ≥ cfg.max_column_drain_period then
        ({ (stop_flows expander_fault s) with
           state := COLUMN_ERROR_STATE, time_in_current_state := 0 }, false)
      else (start_draining expander_fault s, true)
  | COLUMN_DRAIN_SETTLE =>
      let s := stop_flows expander_fault s
      if s.time_in_current_state ≥ cfg.drain_dwell_period then
        ({ s with state := COLUMN_IDLE, time_in_current_state := 0 }, false)
      else (s, false)
  | COLUMN_FILL_ACTIVE =>
      if !s.regulator_enable then
        ({ s with state := COLUMN_FILL_SETTLE, time_in_current_state := 0 }, false)
      else if s.control_error_state ≠ CONTROL_ERROR_POSITIVE then
        ({ (stop_flows expander_fault s) with
           state := COLUMN_FILL_SETTLE, time_in_current_state := 0 }, false)
      else if s.time_in_current_state ≥ cfg.max_column_fill_period then
        ({ (stop_flows expander_fault s) with
           state := COLUMN_ERROR_STATE, time_in_current_state := 0 }, false)
      else (start_filling s, true)
  | COLUMN_FILL_SETTLE =>
      let s := stop_flows expander_fault s
      if s.time_in_current_state ≥ cfg.fill_dwell_period then
        ({ s with state := COLUMN_IDLE, time_in_current_state := 0 }, false)
      else (s, false)
  | COLUMN_MANUAL_DRAIN =>
      let s := start_draining expander_fault s
      -- Note: this transition does not reset the time-in-state counter.
      let s := if s.time_in_current_state ≥ s.manual_drain_period then
                 { s with state := COLUMN_IDLE }
               else s
      (s, true)
  | COLUMN_MANUAL_FILL =>
      let s := start_filling s
      -- Note: this transition does not reset the time-in-state counter.
      let s := if s.time_in_current_state ≥ s.manual_fill_period then
                 { s with state := COLUMN_IDLE }
               else s
      (s, true)
  | COLUMN_ERROR_STATE => (stop_flows expander_fault s, false)

/-- Method `ColumnManager::Update`: inputs, manual-request preemption, control-error
recomputation, then the state machine.  Returns the new state and the
`busy` flag. -/
def ColumnManager.Update (cfg : ColumnConfig) (expander_fault : Bool)
    (s : ColumnManager) (current_elevation_mm setpoint_mm dt : Nat) :
    ColumnManager × Bool :=
  runColumnStateMachine cfg expander_fault
    (applyControlError cfg
      (applyManualRequests (applyInputs cfg s current_elevation_mm setpoint_mm dt)))

/-- The `ColumnManager` constructor: field initializers, then `stop_flows()`.
`feed0`/`drain0` are the pin levels left by the earlier pin-mode setup. -/
def mkColumnManager (expander_fault : Bool) (feed0 drain0 : Bool) : ColumnManager :=
  stop_flows expander_fault { feed_valve := feed0, drain_valve := drain0 }

/-- The `TANK_STATE_TYPE_T` enumeration from TankManager.h. -/
inductive TANK_STATE_TYPE_T where
  | TANK_IDLE
  | TANK_FILL_ACTIVE
  | TANK_FILL_SETTLE
  | TANK_MANUAL_FILL
  | TANK_FILL_TIMEOUT_FAULT
deriving DecidableEq, Repr

export TANK_STATE_TYPE_T (TANK_IDLE TANK_FILL_ACTIVE TANK_FILL_SETTLE
  TANK_MANUAL_FILL TANK_FILL_TIMEOUT_FAULT)

/-- Constant `TANK_UPDATE_PERIOD_MSEC` from TankManager.h. -/
def TANK_UPDATE_PERIOD_MSEC : Nat := 10

/-- Constant `MAX_PUMP_FILL_TIME_MSEC` from TankManager.h. -/
def MAX_PUMP_FILL_TIME_MSEC : Nat := 30000

/-- The state of a `TankManager`.  `pump_active` mirrors the commanded pump
pin level (the `pin >= 0` guard is always true for a `uint8_t` pin).
`faults` is the view of the global `system_faults` bitmap this object
reads and writes. -/
structure TankManager where
  feed_tank_level_above_high : Bool := false
  feed_tank_level_above_low : Bool := false
  pump_active : Bool := false
  enable : Bool := false
  state : TANK_STATE_TYPE_T := TANK_IDLE
  time_in_current_state : Nat := 0
  time_since_last_update : Nat := 0
  request_manual_fill : Bool := false
  manual_fill_period : Nat := 2000
  post_pump_settle_period : Nat := 1000
  faults : Nat := 0
deriving Repr

/-- Method `TankManager::start_pumping`: pump pin HIGH, `_pump_active = true`. -/
def start_pumping (s : TankManager) : TankManager :=
  { s with pump_active := true }

/-- Method `TankManager::stop_pumping`: pump pin LOW, `_pump_active = false`. -/
def stop_pumping (s : TankManager) : TankManager :=
  { s with pump_active := false }

/-- The `switch (_state)` section of `TankManager::Update`. -/
def runTankStateMachine (s : TankManager) : TankManager × Bool :=
  match s.state with
    | TANK_IDLE =>
        let s := stop_pumping s
        if s.request_manual_fill then
          ({ s with
             request_manual_fill := false, state := TANK_MANUAL_FILL,
             time_in_current_state := 0 }, false)
        else if s.enable && !s.feed_tank_level_above_low then
          ({ s with state := TANK_FILL_ACTIVE, time_in_current_state := 0 }, false)
        else (s, false)
    | TANK_FILL_ACTIVE =>
        let s := if !s.enable then
                   { s with state := TANK_IDLE, time_in_current_state := 0 }
                 else s
        let s := start_pumping s
        let s := if s.feed_tank_level_above_high then
                   { (stop_pumping s) with
                     state := TANK_FILL_SETTLE, time_in_current_state := 0 }
                 else s
        -- Timeout: only the fault bit is set; the pump keeps running and the
        -- state is not changed.
        let s := if s.time_in_current_state ≥ MAX_PUMP_FILL_TIME_MSEC then
                   { s with faults := FAULT_SET FAULT_TANK_FILL_TIMEOUT s.faults }
                 else s
        (s, false)
    | TANK_FILL_SETTLE =>
        let s := if !s.enable then
                   { s with state := TANK_IDLE, time_in_current_state := 0 }
                 else s
        let s := stop_pumping s
        let s := if s.time_in_current_state ≥ s.post_pump_settle_period then
                   { s with state := TANK_IDLE, time_in_current_state := 0 }
                 else s
        (s, false)
    | TANK_MANUAL_FILL =>
        let s := start_pumping s
        let s := if s.time_in_current_state ≥ s.manual_fill_period then
                   { s with state := TANK_IDLE, time_in_current_state := 0 }
                 else s
        (s, false)
    | TANK_FILL_TIMEOUT_FAULT => (s, false)

/-- The entry section of `TankManager::Update`: advance both `elapsedMillis`
counters by the wall time `dt` since the previous call and store the sensed
levels (`update_feed_tank_level_status`). -/
def tankApplyInputs (s : TankManager) (dt : Nat) (above_high above_low : Bool) :
    TankManager :=
  { s with
    time_in_current_state := s.time_in_current_state + dt,
    time_since_last_update := s.time_since_last_update + dt,
    feed_tank_level_above_high := above_high,
    feed_tank_level_above_low := above_low }

/-- The sensor-contradiction check of `TankManager::Update`: low dry while
high wet registers `FAULT_TANK_LEVEL_SENSE_FAIL`; nothing else changes. -/
def tankContradictionCheck (s : TankManager) : TankManager :=
  if !s.feed_tank_level_above_low && s.feed_tank_level_above_high then
    { s with faults := FAULT_SET FAULT_TANK_LEVEL_SENSE_FAIL s.faults }
  else s

/-- Method `TankManager::Update`: sensed inputs, contradiction check (every call,
before the rate limiter), rate limiter, then the state machine.  Returns
the new state and the busy flag. -/
def TankManager.Update (s : TankManager) (dt : Nat) (above_high above_low : Bool) :
    TankManager × Bool :=
  let s := tankContradictionCheck (tankApplyInputs s dt above_high above_low)
  if s.time_since_last_update < TANK_UPDATE_PERIOD_MSEC then (s, true)
  else runTankStateMachine { s with time_since_last_update := 0 }

/-- Method `TankManager::Is_Pump_Active`. -/
def TankManager.Is_Pump_Active (s : TankManager) : Bool := s.pump_active

/-- The 3-slot reading history and median index of a `RangeUtil`
(`_range_history[0..2]`, `_median_index`). -/
structure RangeUtil where
  range_history0 : Nat := 0
  range_history1 : Nat := 0
  range_history2 : Nat := 0
  median_index : Nat := 0
deriving Repr

/-- Accessor for `_range_history[i]`, `i < 3`; an index other than 0, 1, 2 would be an
out-of-bounds access in the source and is never produced by
`process_reading`. -/
def rangeHistoryAt (s : RangeUtil) (i : Nat) : Nat :=
  if i = 0 then s.range_history0
  else if i = 1 then s.range_history1
  else s.range_history2

/-- The max-finding loop of `process_reading`, unrolled: running value of
`max_range` after scanning `_range_history[0]` (initial value 0). -/
def maxRange1 (h0 : Nat) : Nat := if h0 > 0 then h0 else 0

/-- Running `max_range_index` after scanning slot 0 (0 either way). -/
def maxIndex1 : Nat := 0

/-- Running `max_range` after scanning slots 0 and 1. -/
def maxRange2 (h0 h1 : Nat) : Nat :=
  if h1 > maxRange1 h0 then h1 else maxRange1 h0

/-- Running `max_range_index` after scanning slots 0 and 1. -/
def maxIndex2 (h0 h1 : Nat) : Nat :=
  if h1 > maxRange1 h0 then 1 else maxIndex1

/-- Running `max_range_index` after the whole scan: the first-seen index of
the strict maximum (strict comparison, so ties keep the earlier index). -/
def maxIndex3 (h0 h1 h2 : Nat) : Nat :=
  if h2 > maxRange2 h0 h1 then 2 else maxIndex2 h0 h1

/-- The min-finding loop of `process_reading`, unrolled: running value of
`min_range` after scanning slot 0 (initial value 0xFFFF). -/
def minRange1 (h0 : Nat) : Nat := if h0 < 65535 then h0 else 65535

/-- Running `min_range_index` after scanning slot 0 (0 either way). -/
def minIndex1 : Nat := 0

/-- Running `min_range` after scanning slots 0 and 1. -/
def minRange2 (h0 h1 : Nat) : Nat :=
  if h1 < minRange1 h0 then h1 else minRange1 h0

/-- Running `min_range_index` after scanning slots 0 and 1. -/
def minIndex2 (h0 h1 : Nat) : Nat :=
  if h1 < minRange1 h0 then 1 else minIndex1

/-- Running `min_range_index` after the whole scan: the first-seen index of
the strict minimum. -/
def minIndex3 (h0 h1 h2 : Nat) : Nat :=
  if h2 < minRange2 h0 h1 then 2 else minIndex2 h0 h1

/-- The median-index search loop in `process_reading`: the first index that is
neither `min_range_index` nor `max_range_index`; if none matched the field
would be left unchanged (unreachable for three indices). -/
def medianIndexOf (minI maxI old : Nat) : Nat :=
  if 0 ≠ minI ∧ 0 ≠ maxI then 0
  else if 1 ≠ minI ∧ 1 ≠ maxI then 1
  else if 2 ≠ minI ∧ 2 ≠ maxI then 2
  else old

/-- Method `RangeUtil::process_reading`: shift the new reading into the history,
find the first-seen maximum and minimum (strict comparisons against running
values initialised to 0 and 0xFFFF), and pick the first index that is
neither as the median.  Returns the updated object and the returned
median value. -/
def process_reading (s : RangeUtil) (reading : Nat) : RangeUtil × Nat :=
  let h0 := reading
  let h1 := s.range_history0
  let h2 := s.range_history1
  let mi := medianIndexOf (minIndex3 h0 h1 h2) (maxIndex3 h0 h1 h2) s.median_index
  let s := { s with
             range_history0 := h0, range_history1 := h1, range_history2 := h2,
             median_index := mi }
  (s, rangeHistoryAt s mi)

/-- Method `RangeUtil::Get_Median_Reading`: `_range_history[_median_index]`. -/
def Get_Median_Reading (s : RangeUtil) : Nat :=
  rangeHistoryAt s s.median_index

/-- The middle value of three numbers by numeric order. -/
def midOf3 (a b c : Nat) : Nat :=
  a + b + c - max a (max b c) - min a (min b c)

/-- A setpoint input (0) whose clamp is a fixed point of the clamp: used to
exhibit inputs that keep the control error in the deadband. -/
def calmSetpoint (cfg : ColumnConfig) : Nat := clampSetpoint cfg 0

/-- An elevation input equal (mod `2 ^ 16`) to the clamped `calmSetpoint`, so
the computed delta is 0 and the control error is `Deadband`. -/
def calmElevation (cfg : ColumnConfig) : Nat := calmSetpoint cfg % 65536

/-- A time step larger than every dwell and manual period of the manager:
guarantees every pending timer comparison fires. -/
def longDt (cfg : ColumnConfig) (s : ColumnManager) : Nat :=
  s.manual_drain_period + s.manual_fill_period + cfg.drain_dwell_period +
    cfg.fill_dwell_period + 1

/-- One `Update` with the quiescent inputs: elevation at the clamped setpoint,
setpoint input 0, a time step past every period, healthy expander. -/
def deadStep (cfg : ColumnConfig) (s : ColumnManager) : ColumnManager :=
  (ColumnManager.Update cfg false s (calmElevation cfg) 0 (longDt cfg s)).1

/-- The two opposing valve commands are not both active. -/
def noBothValves (s : ColumnManager) : Prop :=
  ¬(s.feed_valve = true ∧ s.drain_valve = true)

/-! ## Helper lemmas -/

/-- Function `int16OfInt` is the identity on the `int16_t` range. -/
theorem int16OfInt_eq_self (z : Int) (h1 : -32768 ≤ z) (h2 : z ≤ 32767) :
    int16OfInt z = z := by
  unfold int16OfInt
  split_ifs <;> omega

/-- Classification of `control_loop_update` when the difference does not
overflow `int16_t`. -/
theorem control_loop_update_no_wrap (a b db : Nat) (ha : a < 65536)
    (hb : b < 65536) (hdb : db ≤ 32767) (h1 : a ≤ b + 32767) (h2 : b ≤ a + 32767) :
    (control_loop_update a b db = CONTROL_ERROR_DEADBAND ↔ a - b ≤ db ∧ b - a ≤ db)
    ∧ (control_loop_update a b db = CONTROL_ERROR_POSITIVE ↔ b + db < a)
    ∧ (control_loop_update a b db = CONTROL_ERROR_NEGATIVE ↔ a + db < b) := by
  have hz : int16OfInt ((a : Int) - b) = (a : Int) - b :=
    int16OfInt_eq_self _ (by omega) (by omega)
  unfold control_loop_update
  rw [hz]
  split_ifs with hA hB <;> refine ⟨?_, ?_, ?_⟩ <;> simp <;> omega

/-- The state machine never changes the stored control error. -/
theorem runColumnStateMachine_control_error (cfg : ColumnConfig) (f : Bool)
    (s : ColumnManager) :
    (runColumnStateMachine cfg f s).1.control_error_state = s.control_error_state := by
  rcases s with ⟨sp, el, en, st, tics, mdp, mfp, rmf, rmd, ces, fv, dv⟩
  rcases st <;>
    simp only [runColumnStateMachine, stop_flows, start_filling, start_draining] <;>
    split_ifs <;>
    rfl

/-- Whatever branch `ColumnManager::Update` takes, the stored control error of
the result is the classification of the (mod `2 ^ 16`) elevation against the
clamped setpoint. -/
theorem Update_control_error (cfg : ColumnConfig) (f : Bool) (s : ColumnManager)
    (e p dt : Nat) :
    (ColumnManager.Update cfg f s e p dt).1.control_error_state
      = control_loop_update (e % 65536) (clampSetpoint cfg (p % 65536))
          cfg.setpoint_deadband := by
  rw [ColumnManager.Update, runColumnStateMachine_control_error]
  rcases s with ⟨sp, el, en, st, tics, mdp, mfp, rmf, rmd, ces, fv, dv⟩
  simp only [applyControlError, applyManualRequests, applyInputs]
  split_ifs <;> rfl

/-- Record updates do not disturb untouched fields: `applyInputs` keeps the
state, enable and request flags. -/
theorem applyInputs_keeps (cfg : ColumnConfig) (s : ColumnManager) (e p dt : Nat) :
    (applyInputs cfg s e p dt).state = s.state
    ∧ (applyInputs cfg s e p dt).regulator_enable = s.regulator_enable
    ∧ (applyInputs cfg s e p dt).request_manual_fill = s.request_manual_fill
    ∧ (applyInputs cfg s e p dt).request_manual_drain = s.request_manual_drain :=
  ⟨rfl, rfl, rfl, rfl⟩

/-- With no pending manual request, the preemption section is the identity. -/
theorem applyManualRequests_id (s : ColumnManager)
    (h1 : s.request_manual_fill = false) (h2 : s.request_manual_drain = false) :
    applyManualRequests s = s := by
  simp [applyManualRequests, h1, h2]

/-- In `COLUMN_IDLE` with the regulator enabled, the state machine dispatches
on the control error: `Positive` starts a fill, `Negative` starts a drain. -/
theorem runColumnStateMachine_from_idle (cfg : ColumnConfig) (f : Bool)
    (s : ColumnManager) (hst : s.state = COLUMN_IDLE)
    (hen : s.regulator_enable = true) :
    ((runColumnStateMachine cfg f s).1.state = COLUMN_FILL_ACTIVE
        ↔ s.control_error_state = CONTROL_ERROR_POSITIVE)
    ∧ ((runColumnStateMachine cfg f s).1.state = COLUMN_DRAIN_ACTIVE
        ↔ s.control_error_state = CONTROL_ERROR_NEGATIVE) := by
  rcases s with ⟨sp, el, en, st, tics, mdp, mfp, rmf, rmd, ces, fv, dv⟩
  simp only at hst hen
  subst hst hen
  rcases ces <;>
    simp only [runColumnStateMachine, stop_flows] <;>
    split_ifs <;>
    simp_all

/-- The executed state machine always reports not-busy: every arm of the
`switch` in `TankManager::Update` falls through to `return false`. -/
theorem runTankStateMachine_busy_false (s : TankManager) :
    (runTankStateMachine s).2 = false := by
  rcases s with ⟨fh, fl, pa, en, st, tics, tslu, rmf, mfp, pps, fts⟩
  rcases st <;>
    simp only [runTankStateMachine, stop_pumping, start_pumping] <;>
    split_ifs <;>
    rfl

/-- C10: `TankManager::Update` returns `true` exactly on the calls rejected by
the rate limiter (less than `TANK_UPDATE_PERIOD_MSEC` elapsed since the last
accepted call); every call that runs the state machine returns `false`,
whatever the state and pump activity. -/
theorem tank_update_busy_iff_rate_limited (s : TankManager) (dt : Nat)
    (above_high above_low : Bool) :
    (TankManager.Update s dt above_high above_low).2 = true
      ↔ s.time_since_last_update + dt < TANK_UPDATE_PERIOD_MSEC := by
  have hpre : (tankContradictionCheck
      (tankApplyInputs s dt above_high above_low)).time_since_last_update
        = s.time_since_last_update + dt := by
    unfold tankContradictionCheck tankApplyInputs
    split_ifs <;> rfl
  simp only [TankManager.Update]
  rw [hpre]
  split_ifs with hc
  · simpa using hc
  · simpa [runTankStateMachine_busy_false] using hc

/-- C8 counterexample: a pending `Manual_Fill` request does not preempt
`TANK_FILL_ACTIVE`: the next rate-limit-permitted `Update` stays in
`TANK_FILL_ACTIVE` and leaves the request latched. -/
theorem tank_manual_fill_not_preemptive :
    ((TankManager.Update
        { state := TANK_FILL_ACTIVE, enable := true, request_manual_fill := true,
          time_since_last_update := 10 } 0 false false).1.state ≠ TANK_MANUAL_FILL)
    ∧ ((TankManager.Update
        { state := TANK_FILL_ACTIVE, enable := true, request_manual_fill := true,
          time_since_last_update := 10 } 0 false false).1.state = TANK_FILL_ACTIVE)
    ∧ ((TankManager.Update
        { state := TANK_FILL_ACTIVE, enable := true, request_manual_fill := true,
          time_since_last_update := 10 } 0 false false).1.request_manual_fill = true) := by
  decide

/-- C8 amended: a pending `Manual_Fill` request is honored only from
`TANK_IDLE`: the next rate-limit-permitted `Update` that runs in `TANK_IDLE`
transitions to `TANK_MANUAL_FILL`, clears the request, resets the
time-in-state counter and leaves the pump stopped. -/
theorem tank_manual_fill_honored_from_idle (s : TankManager) (dt : Nat)
    (above_high above_low : Bool) (hst : s.state = TANK_IDLE)
    (hreq : s.request_manual_fill = true)
    (hrate : ¬ s.time_since_last_update + dt < TANK_UPDATE_PERIOD_MSEC) :
    (TankManager.Update s dt above_high above_low).1.state = TANK_MANUAL_FILL
    ∧ (TankManager.Update s dt above_high above_low).1.request_manual_fill = false
    ∧ (TankManager.Update s dt above_high above_low).1.pump_active = false
    ∧ (TankManager.Update s dt above_high above_low).1.time_in_current_state = 0 := by
  rcases s with ⟨fh, fl, pa, en, st, tics, tslu, rmf, mfp, pps, fts⟩
  simp only at hst hreq hrate
  subst hst hreq
  unfold TankManager.Update tankContradictionCheck tankApplyInputs
  simp only
  split_ifs with h1 h2 h3 h4 <;>
    first
      | (exact absurd (by assumption) hrate)
      | (simp only [runTankStateMachine, stop_pumping]; split_ifs <;> simp_all)

/-- C8 witness: from `TANK_IDLE` with a latched request And an expired rate
limiter, the update enters `TANK_MANUAL_FILL`. -/
theorem tank_manual_fill_honored_from_idle_witness :
    (TankManager.Update
      { state := TANK_IDLE, request_manual_fill := true, time_since_last_update := 10 }
      0 false false).1.state = TANK_MANUAL_FILL :=
  (tank_manual_fill_honored_from_idle
    { state := TANK_IDLE, request_manual_fill := true, time_since_last_update := 10 }
    0 false false rfl rfl (by decide)).1

/-- The tank state machine never transitions into `TANK_FILL_TIMEOUT_FAULT`:
no arm of the `switch` assigns that state. -/
theorem runTankStateMachine_no_timeout_entry (s : TankManager)
    (hs : s.state ≠ TANK_FILL_TIMEOUT_FAULT) :
    (runTankStateMachine s).1.state ≠ TANK_FILL_TIMEOUT_FAULT := by
  rcases s with ⟨fh, fl, pa, en, st, tics, tslu, rmf, mfp, pps, fts⟩
  rcases st <;>
    simp only [runTankStateMachine, stop_pumping, start_pumping] <;>
    first
      | (split_ifs <;> simp_all)
      | simp_all

/-- C2: at the fill timeout the code only registers `FAULT_TANK_FILL_TIMEOUT`:
the update leaves the state in `TANK_FILL_ACTIVE` with the pump still
commanded on, and `TANK_FILL_TIMEOUT_FAULT` is never entered from any other
state by any update. -/
theorem tank_fill_timeout_keeps_pumping :
    ((TankManager.Update
        { state := TANK_FILL_ACTIVE, enable := true, pump_active := true,
          time_in_current_state := 29995, time_since_last_update := 5 }
        10 false false).1.state = TANK_FILL_ACTIVE)
    ∧ ((TankManager.Update
        { state := TANK_FILL_ACTIVE, enable := true, pump_active := true,
          time_in_current_state := 29995, time_since_last_update := 5 }
        10 false false).1.pump_active = true)
    ∧ (FAULT_ACTIVE FAULT_TANK_FILL_TIMEOUT
        (TankManager.Update
          { state := TANK_FILL_ACTIVE, enable := true, pump_active := true,
            time_in_current_state := 29995, time_since_last_update := 5 }
          10 false false).1.faults = true)
    ∧ (∀ (s : TankManager) (dt : Nat) (above_high above_low : Bool),
        s.state ≠ TANK_FILL_TIMEOUT_FAULT →
        (TankManager.Update s dt above_high above_low).1.state
          ≠ TANK_FILL_TIMEOUT_FAULT) := by
  refine ⟨by decide, by decide, by decide, ?_⟩
  intro s dt above_high above_low hs
  have hpre : (tankContradictionCheck (tankApplyInputs s dt above_high above_low)).state
      = s.state := by
    unfold tankContradictionCheck tankApplyInputs
    split_ifs <;> rfl
  simp only [TankManager.Update]
  split_ifs with hc
  · simpa [hpre] using hs
  · exact runTankStateMachine_no_timeout_entry _ (by simpa [hpre] using hs)

/-- C2 witness: an update from `TANK_IDLE` does not enter the dead
`TANK_FILL_TIMEOUT_FAULT` state. -/
theorem tank_fill_timeout_keeps_pumping_witness :
    (TankManager.Update { state := TANK_IDLE } 10 false false).1.state
      ≠ TANK_FILL_TIMEOUT_FAULT :=
  tank_fill_timeout_keeps_pumping.2.2.2 { state := TANK_IDLE } 10 false false (by decide)

/-- Function `stop_flows` touches only the valve commands. -/
theorem stop_flows_state (f : Bool) (s : ColumnManager) :
    (stop_flows f s).state = s.state := by
  unfold stop_flows
  split_ifs <;> rfl

/-- C3: at the fill timeout (enabled regulator, error held `Positive`,
time-in-state past the maximum fill period) the update stops both valves
and enters `COLUMN_ERROR_STATE`, a further update stays there with the
valves closed, and `COLUMN_ERROR_STATE` is terminal under updates with no
pending manual request.  No fault is registered: `ColumnManager` carries no
fault-setting path at all (its embedding neither reads nor writes any fault
bit except the expander guard). -/
theorem column_fill_timeout_behavior :
    ((ColumnManager.Update {} false
        { regulator_enable := true, state := COLUMN_FILL_ACTIVE, feed_valve := true,
          time_in_current_state := 59990 } 300 150 20).1.state = COLUMN_ERROR_STATE)
    ∧ ((ColumnManager.Update {} false
        { regulator_enable := true, state := COLUMN_FILL_ACTIVE, feed_valve := true,
          time_in_current_state := 59990 } 300 150 20).1.feed_valve = false)
    ∧ ((ColumnManager.Update {} false
        { regulator_enable := true, state := COLUMN_FILL_ACTIVE, feed_valve := true,
          time_in_current_state := 59990 } 300 150 20).1.drain_valve = false)
    ∧ (∀ (cfg : ColumnConfig) (f : Bool) (s : ColumnManager) (e p dt : Nat),
        s.state = COLUMN_ERROR_STATE → s.request_manual_fill = false →
        s.request_manual_drain = false →
        (ColumnManager.Update cfg f s e p dt).1.state = COLUMN_ERROR_STATE) := by
  refine ⟨by decide, by decide, by decide, ?_⟩
  intro cfg f s e p dt hs h1 h2
  unfold ColumnManager.Update
  rw [applyManualRequests_id _ (by simpa [applyInputs] using h1)
    (by simpa [applyInputs] using h2)]
  have hst : (applyControlError cfg (applyInputs cfg s e p dt)).state
      = COLUMN_ERROR_STATE := by
    simpa [applyControlError, applyInputs] using hs
  simp only [runColumnStateMachine]
  split <;> simp_all [stop_flows_state]

/-- C3 witness: from `COLUMN_ERROR_STATE` with no pending request, an update
stays in `COLUMN_ERROR_STATE`. -/
theorem column_fill_timeout_behavior_witness :
    (ColumnManager.Update {} false { state := COLUMN_ERROR_STATE } 150 150 5).1.state
      = COLUMN_ERROR_STATE :=
  column_fill_timeout_behavior.2.2.2 {} false { state := COLUMN_ERROR_STATE }
    150 150 5 rfl rfl rfl

/-- C7 counterexample: with constructor limits 0..65535, elevation 65535 and
commanded setpoint 0 (already clamped), the `int16_t` delta wraps to -1, so
the control error is `Deadband` although the exact difference 65535 exceeds
the configured deadband 4. -/
theorem deadband_wrap_counterexample :
    ((ColumnManager.Update
        { elevation_lower_limit := 0, elevation_upper_limit := 65535 } false {}
        65535 0 5).1.control_error_state = CONTROL_ERROR_DEADBAND)
    ∧ ((ColumnManager.Update
        { elevation_lower_limit := 0, elevation_upper_limit := 65535 } false {}
        65535 0 5).1.setpoint_mm = 0)
    ∧ ((ColumnManager.Update
        { elevation_lower_limit := 0, elevation_upper_limit := 65535 } false {}
        65535 0 5).1.elevation_mm = 65535)
    ∧ (ColumnConfig.setpoint_deadband
        { elevation_lower_limit := 0, elevation_upper_limit := 65535 } = 4)
    ∧ ((65535 : Nat) - 0 > 4) := by
  refine ⟨by decide, by decide, by decide, by decide, by decide⟩

/-- C7 amended: as long as the exact difference between the elevation and the
clamped setpoint is at most 32767 (no `int16_t` wrap), the control error
stored by `ColumnManager::Update` is `Deadband` exactly when that exact
absolute difference is at most the configured deadband. -/
theorem deadband_symmetry_amended (cfg : ColumnConfig) (f : Bool)
    (s : ColumnManager) (e p dt : Nat) (he : e < 65536)
    (hlo : cfg.elevation_lower_limit < 65536)
    (hhi : cfg.elevation_upper_limit < 65536)
    (hdb : cfg.setpoint_deadband ≤ 32767)
    (h1 : e ≤ clampSetpoint cfg (p % 65536) + 32767)
    (h2 : clampSetpoint cfg (p % 65536) ≤ e + 32767) :
    (ColumnManager.Update cfg f s e p dt).1.control_error_state = CONTROL_ERROR_DEADBAND
      ↔ (e - clampSetpoint cfg (p % 65536) ≤ cfg.setpoint_deadband
         ∧ clampSetpoint cfg (p % 65536) - e ≤ cfg.setpoint_deadband) := by
  have hsc : clampSetpoint cfg (p % 65536) < 65536 := by
    simp only [clampSetpoint]
    split_ifs <;> omega
  have herr := Update_control_error cfg f s e p dt
  rw [Nat.mod_eq_of_lt he] at herr
  rw [herr]
  exact (control_loop_update_no_wrap e (clampSetpoint cfg (p % 65536))
    cfg.setpoint_deadband he hsc hdb h1 h2).1

/-- C7 witness: with the default configuration, elevation 153 against
setpoint 150 is inside the deadband. -/
theorem deadband_symmetry_amended_witness :
    (ColumnManager.Update {} false {} 153 150 5).1.control_error_state
      = CONTROL_ERROR_DEADBAND :=
  (deadband_symmetry_amended {} false {} 153 150 5 (by decide) (by decide)
    (by decide) (by decide) (by decide) (by decide)).mpr (by decide)

/-- C1 counterexample: elevation 100 below setpoint 150 (difference 50,
deadband 4) yields control error `Negative` and, from enabled `COLUMN_IDLE`,
a transition to `COLUMN_DRAIN_ACTIVE` -- not `Positive`/`COLUMN_FILL_ACTIVE`
as the claim states. -/
theorem control_error_direction_counterexample :
    ((ColumnManager.Update {} false { regulator_enable := true }
        100 150 5).1.control_error_state = CONTROL_ERROR_NEGATIVE)
    ∧ ((ColumnManager.Update {} false { regulator_enable := true }
        100 150 5).1.state = COLUMN_DRAIN_ACTIVE)
    ∧ ((ColumnManager.Update {} false { regulator_enable := true }
        200 150 5).1.control_error_state = CONTROL_ERROR_POSITIVE)
    ∧ ((ColumnManager.Update {} false { regulator_enable := true }
        200 150 5).1.state = COLUMN_FILL_ACTIVE) := by
  refine ⟨by decide, by decide, by decide, by decide⟩

/-- C1 amended: after clamping, and in the absence of `int16_t` wrap, the
recomputed control error is `Positive` exactly when the elevation exceeds
the setpoint by more than the deadband and `Negative` exactly when it is
below it by more than the deadband; consequently, from enabled
`COLUMN_IDLE` with no pending manual request, elevation above the setpoint
starts a fill and elevation below it starts a drain. -/
theorem idle_dispatch_follows_signed_error (cfg : ColumnConfig) (f : Bool)
    (s : ColumnManager) (e p dt : Nat)
    (hst : s.state = COLUMN_IDLE) (hen : s.regulator_enable = true)
    (hrf : s.request_manual_fill = false) (hrd : s.request_manual_drain = false)
    (he : e < 65536)
    (hlo : cfg.elevation_lower_limit < 65536)
    (hhi : cfg.elevation_upper_limit < 65536)
    (hdb : cfg.setpoint_deadband ≤ 32767)
    (h1 : e ≤ clampSetpoint cfg (p % 65536) + 32767)
    (h2 : clampSetpoint cfg (p % 65536) ≤ e + 32767) :
    ((ColumnManager.Update cfg f s e p dt).1.control_error_state
        = CONTROL_ERROR_POSITIVE
      ↔ clampSetpoint cfg (p % 65536) + cfg.setpoint_deadband < e)
    ∧ ((ColumnManager.Update cfg f s e p dt).1.control_error_state
        = CONTROL_ERROR_NEGATIVE
      ↔ e + cfg.setpoint_deadband < clampSetpoint cfg (p % 65536))
    ∧ ((ColumnManager.Update cfg f s e p dt).1.state = COLUMN_FILL_ACTIVE
      ↔ clampSetpoint cfg (p % 65536) + cfg.setpoint_deadband < e)
    ∧ ((ColumnManager.Update cfg f s e p dt).1.state = COLUMN_DRAIN_ACTIVE
      ↔ e + cfg.setpoint_deadband < clampSetpoint cfg (p % 65536)) := by
  have hsc : clampSetpoint cfg (p % 65536) < 65536 := by
    simp only [clampSetpoint]
    split_ifs <;> omega
  have hcls := control_loop_update_no_wrap e (clampSetpoint cfg (p % 65536))
    cfg.setpoint_deadband he hsc hdb h1 h2
  have herr := Update_control_error cfg f s e p dt
  rw [Nat.mod_eq_of_lt he] at herr
  have hU : ColumnManager.Update cfg f s e p dt
      = runColumnStateMachine cfg f
          (applyControlError cfg (applyManualRequests (applyInputs cfg s e p dt))) := rfl
  have hinner_err : (applyControlError cfg
      (applyManualRequests (applyInputs cfg s e p dt))).control_error_state
        = control_loop_update e (clampSetpoint cfg (p % 65536))
            cfg.setpoint_deadband := by
    rw [← herr, hU, runColumnStateMachine_control_error]
  have hmr : applyManualRequests (applyInputs cfg s e p dt)
      = applyInputs cfg s e p dt :=
    applyManualRequests_id _ (by rw [(applyInputs_keeps cfg s e p dt).2.2.1, hrf])
      (by rw [(applyInputs_keeps cfg s e p dt).2.2.2, hrd])
  have hist : (applyControlError cfg
      (applyManualRequests (applyInputs cfg s e p dt))).state = COLUMN_IDLE := by
    rw [hmr]
    show (applyInputs cfg s e p dt).state = COLUMN_IDLE
    rw [(applyInputs_keeps cfg s e p dt).1, hst]
  have hien : (applyControlError cfg
      (applyManualRequests (applyInputs cfg s e p dt))).regulator_enable = true := by
    rw [hmr]
    show (applyInputs cfg s e p dt).regulator_enable = true
    rw [(applyInputs_keeps cfg s e p dt).2.1, hen]
  have hmach := runColumnStateMachine_from_idle cfg f _ hist hien
  refine ⟨?_, ?_, ?_, ?_⟩
  · rw [herr]; exact hcls.2.1
  · rw [herr]; exact hcls.2.2
  · rw [hU, hmach.1, hinner_err]; exact hcls.2.1
  · rw [hU, hmach.2, hinner_err]; exact hcls.2.2

/-- C1 witness: with the default configuration from enabled idle, elevation
200 against setpoint 150 starts a fill. -/
theorem idle_dispatch_follows_signed_error_witness :
    (ColumnManager.Update {} false { regulator_enable := true }
      200 150 5).1.state = COLUMN_FILL_ACTIVE :=
  (idle_dispatch_follows_signed_error {} false { regulator_enable := true }
    200 150 5 rfl rfl rfl rfl (by decide) (by decide) (by decide) (by decide)
    (by decide) (by decide)).2.2.1.mpr (by decide)

/-- C5 counterexample: disabling the regulator while in `COLUMN_FILL_ACTIVE`
makes the next `Update` transition to `COLUMN_FILL_SETTLE` without touching
the valves: the feed valve stays commanded on for that call. -/
theorem disable_exit_leaves_valve_driven :
    ((ColumnManager.Update {} false
        { regulator_enable := false, state := COLUMN_FILL_ACTIVE, feed_valve := true }
        150 150 5).1.state = COLUMN_FILL_SETTLE)
    ∧ ((ColumnManager.Update {} false
        { regulator_enable := false, state := COLUMN_FILL_ACTIVE, feed_valve := true }
        150 150 5).1.feed_valve = true) := by
  refine ⟨by decide, by decide⟩

/-- A rate-free update from either Settle state with no pending manual
request and a working expander always commands both valves off. -/
theorem settle_update_stops_valves (cfg : ColumnConfig) (s : ColumnManager)
    (e p dt : Nat)
    (hrf : s.request_manual_fill = false) (hrd : s.request_manual_drain = false)
    (hst : s.state = COLUMN_FILL_SETTLE ∨ s.state = COLUMN_DRAIN_SETTLE) :
    (ColumnManager.Update cfg false s e p dt).1.feed_valve = false
    ∧ (ColumnManager.Update cfg false s e p dt).1.drain_valve = false := by
  rcases s with ⟨sp, el, en, st, tics, mdp, mfp, rmf, rmd, ces, fv, dv⟩
  simp only at hrf hrd
  subst hrf hrd
  rcases hst with h | h <;>
    (try simp only at h) <;>
    subst h <;>
    simp only [ColumnManager.Update, applyInputs, applyManualRequests,
      applyControlError, runColumnStateMachine, stop_flows, Bool.false_eq_true,
      if_false, ite_false] <;>
    split_ifs <;>
    exact ⟨rfl, rfl⟩

/-- C5 amended: when the regulator has been disabled, the next `Update` from an
active state transitions to the matching Settle state with the time-in-state
counter reset but leaves both valve commands untouched; the actuators are
stopped one call later, by the Settle state's `stop_flows`. -/
theorem disable_unwinds_via_settle (cfg : ColumnConfig) (f : Bool)
    (s : ColumnManager) (e p dt : Nat)
    (hrf : s.request_manual_fill = false) (hrd : s.request_manual_drain = false)
    (hen : s.regulator_enable = false) :
    (s.state = COLUMN_FILL_ACTIVE →
      ((ColumnManager.Update cfg f s e p dt).1.state = COLUMN_FILL_SETTLE
       ∧ (ColumnManager.Update cfg f s e p dt).1.feed_valve = s.feed_valve
       ∧ (ColumnManager.Update cfg f s e p dt).1.drain_valve = s.drain_valve
       ∧ (ColumnManager.Update cfg f s e p dt).1.time_in_current_state = 0
       ∧ ∀ e2 p2 dt2 : Nat,
           (ColumnManager.Update cfg false (ColumnManager.Update cfg f s e p dt).1
             e2 p2 dt2).1.feed_valve = false
           ∧ (ColumnManager.Update cfg false (ColumnManager.Update cfg f s e p dt).1
             e2 p2 dt2).1.drain_valve = false))
    ∧ (s.state = COLUMN_DRAIN_ACTIVE →
      ((ColumnManager.Update cfg f s e p dt).1.state = COLUMN_DRAIN_SETTLE
       ∧ (ColumnManager.Update cfg f s e p dt).1.feed_valve = s.feed_valve
       ∧ (ColumnManager.Update cfg f s e p dt).1.drain_valve = s.drain_valve
       ∧ (ColumnManager.Update cfg f s e p dt).1.time_in_current_state = 0
       ∧ ∀ e2 p2 dt2 : Nat,
           (ColumnManager.Update cfg false (ColumnManager.Update cfg f s e p dt).1
             e2 p2 dt2).1.feed_valve = false
           ∧ (ColumnManager.Update cfg false (ColumnManager.Update cfg f s e p dt).1
             e2 p2 dt2).1.drain_valve = false)) := by
  rcases s with ⟨sp, el, en, st, tics, mdp, mfp, rmf, rmd, ces, fv, dv⟩
  simp only at hrf hrd hen
  subst hrf hrd hen
  constructor
  · intro hst
    try simp only at hst
    subst hst
    have hfirst : (ColumnManager.Update cfg f
        ⟨sp, el, false, COLUMN_FILL_ACTIVE, tics, mdp, mfp, false, false, ces, fv, dv⟩
        e p dt).1
        = ⟨clampSetpoint cfg (p % 65536), e % 65536, false, COLUMN_FILL_SETTLE, 0,
           mdp, mfp, false, false,
           control_loop_update (e % 65536) (clampSetpoint cfg (p % 65536))
             cfg.setpoint_deadband, fv, dv⟩ := rfl
    rw [hfirst]
    exact ⟨rfl, rfl, rfl, rfl, fun e2 p2 dt2 =>
      settle_update_stops_valves cfg _ e2 p2 dt2 rfl rfl (Or.inl rfl)⟩
  · intro hst
    try simp only at hst
    subst hst
    have hfirst : (ColumnManager.Update cfg f
        ⟨sp, el, false, COLUMN_DRAIN_ACTIVE, tics, mdp, mfp, false, false, ces, fv, dv⟩
        e p dt).1
        = ⟨clampSetpoint cfg (p % 65536), e % 65536, false, COLUMN_DRAIN_SETTLE, 0,
           mdp, mfp, false, false,
           control_loop_update (e % 65536) (clampSetpoint cfg (p % 65536))
             cfg.setpoint_deadband, fv, dv⟩ := rfl
    rw [hfirst]
    exact ⟨rfl, rfl, rfl, rfl, fun e2 p2 dt2 =>
      settle_update_stops_valves cfg _ e2 p2 dt2 rfl rfl (Or.inr rfl)⟩

/-- C5 witness: with the feed valve driven, a disabled update from
`COLUMN_FILL_ACTIVE` reaches `COLUMN_FILL_SETTLE` with the valve untouched,
and the following update stops both valves. -/
theorem disable_unwinds_via_settle_witness :
    ((ColumnManager.Update {} false
        { regulator_enable := false, state := COLUMN_FILL_ACTIVE, feed_valve := true }
        150 150 5).1.state = COLUMN_FILL_SETTLE)
    ∧ ((ColumnManager.Update {} false
        (ColumnManager.Update {} false
          { regulator_enable := false, state := COLUMN_FILL_ACTIVE, feed_valve := true }
          150 150 5).1 150 150 5).1.feed_valve = false) :=
  ⟨((disable_unwinds_via_settle {} false
      { regulator_enable := false, state := COLUMN_FILL_ACTIVE, feed_valve := true }
      150 150 5 rfl rfl rfl).1 rfl).1,
   (((disable_unwinds_via_settle {} false
      { regulator_enable := false, state := COLUMN_FILL_ACTIVE, feed_valve := true }
      150 150 5 rfl rfl rfl).1 rfl).2.2.2.2 150 150 5).1⟩

/-- C9 counterexample: the `COLUMN_MANUAL_FILL` to `COLUMN_IDLE` transition
does not reset the time-in-state counter: with a 1000 ms manual period and
1500 ms elapsed, the update enters `COLUMN_IDLE` with the counter at 1500. -/
theorem manual_to_idle_timer_not_reset :
    ((ColumnManager.Update {} false
        { state := COLUMN_MANUAL_FILL, manual_fill_period := 1000 }
        150 150 1500).1.state = COLUMN_IDLE)
    ∧ ((ColumnManager.Update {} false
        { state := COLUMN_MANUAL_FILL, manual_fill_period := 1000 }
        150 150 1500).1.time_in_current_state = 1500)
    ∧ ((1500 : Nat) ≠ 0) := by
  refine ⟨by decide, by decide, by decide⟩

set_option maxHeartbeats 4000000 in
/-- C9 amended: on every `Update`, if the state changed then the time-in-state
counter was reset to zero, except for the `COLUMN_MANUAL_FILL`/`COLUMN_MANUAL_DRAIN`
to `COLUMN_IDLE` transitions, where it keeps running (old value plus `dt`);
if the state did not change, the counter either advanced by exactly the
elapsed time `dt` or was reset by a re-latched manual request. -/
theorem time_in_state_reset_amended (cfg : ColumnConfig) (f : Bool)
    (s : ColumnManager) (e p dt : Nat) :
    ((ColumnManager.Update cfg f s e p dt).1.state ≠ s.state →
      ((ColumnManager.Update cfg f s e p dt).1.time_in_current_state = 0
       ∨ ((s.state = COLUMN_MANUAL_FILL ∨ s.state = COLUMN_MANUAL_DRAIN)
          ∧ (ColumnManager.Update cfg f s e p dt).1.state = COLUMN_IDLE
          ∧ (ColumnManager.Update cfg f s e p dt).1.time_in_current_state
              = s.time_in_current_state + dt)))
    ∧ ((ColumnManager.Update cfg f s e p dt).1.state = s.state →
        ((ColumnManager.Update cfg f s e p dt).1.time_in_current_state
            = s.time_in_current_state + dt
         ∨ (ColumnManager.Update cfg f s e p dt).1.time_in_current_state = 0)) := by
  rcases s with ⟨sp, el, en, st, tics, mdp, mfp, rmf, rmd, ces, fv, dv⟩
  rcases rmf <;> rcases rmd <;> rcases en <;> rcases st <;>
    simp only [ColumnManager.Update, applyInputs, applyManualRequests,
      applyControlError, runColumnStateMachine, stop_flows, start_filling,
      start_draining, Bool.false_eq_true, Bool.true_eq_false, if_false, ite_false,
      if_true, ite_true, Bool.not_false, Bool.not_true] <;>
    first
      | (split_ifs <;> simp_all)
      | simp_all

/-- C9 witness: the amended statement at the manual-fill expiry input. -/
theorem time_in_state_reset_amended_witness :
    ((ColumnManager.Update {} false
        { state := COLUMN_MANUAL_FILL, manual_fill_period := 1000 }
        150 150 1500).1.time_in_current_state = 0
     ∨ ((({ state := COLUMN_MANUAL_FILL, manual_fill_period := 1000 } :
            ColumnManager).state = COLUMN_MANUAL_FILL
         ∨ ({ state := COLUMN_MANUAL_FILL, manual_fill_period := 1000 } :
            ColumnManager).state = COLUMN_MANUAL_DRAIN)
        ∧ (ColumnManager.Update {} false
            { state := COLUMN_MANUAL_FILL, manual_fill_period := 1000 }
            150 150 1500).1.state = COLUMN_IDLE
        ∧ (ColumnManager.Update {} false
            { state := COLUMN_MANUAL_FILL, manual_fill_period := 1000 }
            150 150 1500).1.time_in_current_state
          = ({ state := COLUMN_MANUAL_FILL, manual_fill_period := 1000 } :
              ColumnManager).time_in_current_state + 1500)) :=
  (time_in_state_reset_amended {} false
    { state := COLUMN_MANUAL_FILL, manual_fill_period := 1000 }
    150 150 1500).1 (by decide)

/-- The value returned by `process_reading` is exactly what
`Get_Median_Reading` reports afterwards. -/
theorem process_reading_snd (s : RangeUtil) (reading : Nat) :
    (process_reading s reading).2
      = Get_Median_Reading (process_reading s reading).1 := rfl

set_option maxHeartbeats 4000000 in
/-- C6: after inserting a reading, `Get_Median_Reading` returns the middle of
the three history values by numeric order (ties included): the value at the
index that is neither the first-seen maximum nor the first-seen minimum. -/
theorem median_of_three_correct (s : RangeUtil) (reading : Nat)
    (hr : reading < 65536) (h0 : s.range_history0 < 65536)
    (h1 : s.range_history1 < 65536) :
    Get_Median_Reading (process_reading s reading).1
      = midOf3 reading s.range_history0 s.range_history1
    ∧ (process_reading s reading).2
      = midOf3 reading s.range_history0 s.range_history1 := by
  rcases s with ⟨a, b, c, mi⟩
  simp only at hr h0 h1
  have hmain : Get_Median_Reading (process_reading ⟨a, b, c, mi⟩ reading).1
      = midOf3 reading a b := by
    simp only [Get_Median_Reading, process_reading, medianIndexOf, maxIndex3,
      maxIndex2, maxIndex1, maxRange2, maxRange1, minIndex3, minIndex2,
      minIndex1, minRange2, minRange1, rangeHistoryAt, midOf3]
    split_ifs <;> simp_all <;> omega
  exact ⟨hmain, by rw [process_reading_snd]; exact hmain⟩

/-- C6 witness: the triples from the claim: inserting 10, 10, 20 into a fresh
history gives median 10; inserting 5, 20, 20 gives median 20. -/
theorem median_of_three_correct_witness :
    Get_Median_Reading (process_reading
      { range_history0 := 10, range_history1 := 10, range_history2 := 5,
        median_index := 0 } 20).1 = 10
    ∧ Get_Median_Reading (process_reading
      { range_history0 := 20, range_history1 := 5, median_index := 0,
        range_history2 := 0 } 20).1 = 20 :=
  ⟨by
    rw [(median_of_three_correct
      { range_history0 := 10, range_history1 := 10, range_history2 := 5,
        median_index := 0 } 20 (by decide) (by decide) (by decide)).1]
    decide,
   by
    rw [(median_of_three_correct
      { range_history0 := 20, range_history1 := 5, median_index := 0,
        range_history2 := 0 } 20 (by decide) (by decide) (by decide)).1]
    decide⟩

/-- An elevation congruent to the setpoint mod `2 ^ 16` always classifies as
`Deadband` (the computed delta is 0). -/
theorem control_loop_mod_self (x db : Nat) :
    control_loop_update (x % 65536) x db = CONTROL_ERROR_DEADBAND := by
  have h : (((x % 65536 : Nat) : Int) - ((x : Nat) : Int)) % 65536 = 0 := by
    omega
  unfold control_loop_update int16OfInt
  rw [h]
  norm_num

/-- The quiescent inputs of `deadStep` always produce a `Deadband` control
error inside `Update`. -/
theorem calm_error (cfg : ColumnConfig) :
    control_loop_update (calmElevation cfg % 65536) (clampSetpoint cfg (0 % 65536))
      cfg.setpoint_deadband = CONTROL_ERROR_DEADBAND := by
  have h1 : calmElevation cfg % 65536 = calmSetpoint cfg % 65536 := by
    unfold calmElevation
    omega
  have h2 : clampSetpoint cfg (0 % 65536) = calmSetpoint cfg := by
    unfold calmSetpoint
    norm_num
  rw [h1, h2]
  exact control_loop_mod_self (calmSetpoint cfg) cfg.setpoint_deadband

set_option maxHeartbeats 4000000 in
/-- A single update never leaves both valves commanded on if they were not
both on before: every write path commands at most one valve HIGH. -/
theorem update_preserves_noBothValves (cfg : ColumnConfig) (f : Bool)
    (s : ColumnManager) (e p dt : Nat) (h : noBothValves s) :
    noBothValves (ColumnManager.Update cfg f s e p dt).1 := by
  rcases s with ⟨sp, el, en, st, tics, mdp, mfp, rmf, rmd, ces, fv, dv⟩
  unfold noBothValves at h ⊢
  rcases rmf <;> rcases rmd <;> rcases en <;> rcases st <;>
    simp only [ColumnManager.Update, applyInputs, applyManualRequests,
      applyControlError, runColumnStateMachine, stop_flows, start_filling,
      start_draining, Bool.false_eq_true, Bool.true_eq_false, if_false, ite_false,
      if_true, ite_true, Bool.not_false, Bool.not_true] <;>
    first
      | (split_ifs <;> simp_all)
      | simp_all

set_option maxHeartbeats 4000000 in
/-- After a quiescent step no manual request is pending: pending requests are
consumed and nothing re-latches them. -/
theorem deadStep_requests (cfg : ColumnConfig) (s : ColumnManager) :
    (deadStep cfg s).request_manual_fill = false
    ∧ (deadStep cfg s).request_manual_drain = false := by
  rcases s with ⟨sp, el, en, st, tics, mdp, mfp, rmf, rmd, ces, fv, dv⟩
  rcases rmf <;> rcases rmd <;> rcases en <;> rcases st <;>
    simp only [deadStep, ColumnManager.Update, applyInputs, applyManualRequests,
      applyControlError, runColumnStateMachine, stop_flows, start_filling,
      start_draining, calm_error, Bool.false_eq_true, Bool.true_eq_false,
      if_false, ite_false, if_true, ite_true, Bool.not_false, Bool.not_true] <;>
    first
      | (split_ifs <;> simp_all)
      | simp_all

set_option maxHeartbeats 4000000 in
/-- A quiescent step never ends in an active fill or drain state: the control
error is `Deadband`, so `COLUMN_IDLE` does not dispatch and the active
states exit to their Settle states. -/
theorem deadStep_not_active (cfg : ColumnConfig) (s : ColumnManager) :
    (deadStep cfg s).state ≠ COLUMN_DRAIN_ACTIVE
    ∧ (deadStep cfg s).state ≠ COLUMN_FILL_ACTIVE := by
  rcases s with ⟨sp, el, en, st, tics, mdp, mfp, rmf, rmd, ces, fv, dv⟩
  rcases rmf <;> rcases rmd <;> rcases en <;> rcases st <;>
    simp only [deadStep, ColumnManager.Update, applyInputs, applyManualRequests,
      applyControlError, runColumnStateMachine, stop_flows, start_filling,
      start_draining, calm_error, longDt, Bool.false_eq_true, Bool.true_eq_false,
      if_false, ite_false, if_true, ite_true, Bool.not_false, Bool.not_true] <;>
    first
      | (split_ifs <;> simp_all)
      | simp_all

set_option maxHeartbeats 4000000 in
/-- From any non-active state with no pending request, a quiescent step lands
in `COLUMN_IDLE` or `COLUMN_ERROR_STATE`: the long time step fires every
dwell and manual-period comparison. -/
theorem deadStep_inactive_to_calm (cfg : ColumnConfig) (s : ColumnManager)
    (hrf : s.request_manual_fill = false) (hrd : s.request_manual_drain = false)
    (h1 : s.state ≠ COLUMN_DRAIN_ACTIVE) (h2 : s.state ≠ COLUMN_FILL_ACTIVE) :
    (deadStep cfg s).state = COLUMN_IDLE
    ∨ (deadStep cfg s).state = COLUMN_ERROR_STATE := by
  rcases s with ⟨sp, el, en, st, tics, mdp, mfp, rmf, rmd, ces, fv, dv⟩
  simp only at hrf hrd h1 h2
  subst hrf hrd
  rcases st <;>
    first
      | (exact absurd rfl h1)
      | (exact absurd rfl h2)
      | (simp only [deadStep, ColumnManager.Update, applyInputs,
          applyManualRequests, applyControlError, runColumnStateMachine,
          stop_flows, start_filling, start_draining, calm_error, longDt,
          Bool.false_eq_true, Bool.true_eq_false, if_false, ite_false, if_true,
          ite_true, Bool.not_false, Bool.not_true] <;>
         first
           | (split_ifs <;> simp_all <;> omega)
           | simp_all
           | (split_ifs <;> omega))

set_option maxHeartbeats 4000000 in
/-- From `COLUMN_IDLE` or `COLUMN_ERROR_STATE` with no pending request, a
quiescent step commands both valves off (`stop_flows` with a healthy
expander). -/
theorem deadStep_calm_off (cfg : ColumnConfig) (s : ColumnManager)
    (hrf : s.request_manual_fill = false) (hrd : s.request_manual_drain = false)
    (hst : s.state = COLUMN_IDLE ∨ s.state = COLUMN_ERROR_STATE) :
    (deadStep cfg s).feed_valve = false ∧ (deadStep cfg s).drain_valve = false := by
  rcases s with ⟨sp, el, en, st, tics, mdp, mfp, rmf, rmd, ces, fv, dv⟩
  simp only at hrf hrd hst
  subst hrf hrd
  rcases hst with h | h <;>
    subst h <;>
    simp only [deadStep, ColumnManager.Update, applyInputs, applyManualRequests,
      applyControlError, runColumnStateMachine, stop_flows, start_filling,
      start_draining, calm_error, Bool.false_eq_true, Bool.true_eq_false,
      if_false, ite_false, if_true, ite_true, Bool.not_false, Bool.not_true] <;>
    first
      | (split_ifs <;> simp_all)
      | simp_all
      | exact ⟨rfl, rfl⟩

/-- C4: the constructor commands both valves off; a single `Update` from any
state with at most one valve commanded never commands both (so along every
run from construction at most one of the opposing actuator pins is HIGH);
and from every state the stop-both command is reachable: three quiescent
updates always end with both valves commanded off. -/
theorem no_simultaneous_actuation_and_stop_reachable :
    (∀ f0 d0 : Bool, noBothValves (mkColumnManager false f0 d0))
    ∧ (∀ (cfg : ColumnConfig) (f : Bool) (s : ColumnManager) (e p dt : Nat),
        noBothValves s → noBothValves (ColumnManager.Update cfg f s e p dt).1)
    ∧ (∀ (cfg : ColumnConfig) (s : ColumnManager),
        (deadStep cfg (deadStep cfg (deadStep cfg s))).feed_valve = false
        ∧ (deadStep cfg (deadStep cfg (deadStep cfg s))).drain_valve = false) := by
  refine ⟨?_, update_preserves_noBothValves, ?_⟩
  · intro f0 d0
    unfold noBothValves mkColumnManager stop_flows
    simp
  · intro cfg s
    have ha1 := deadStep_requests cfg s
    have hb1 := deadStep_not_active cfg s
    have hc := deadStep_inactive_to_calm cfg (deadStep cfg s) ha1.1 ha1.2 hb1.1 hb1.2
    have ha2 := deadStep_requests cfg (deadStep cfg s)
    exact deadStep_calm_off cfg (deadStep cfg (deadStep cfg s)) ha2.1 ha2.2 hc

/-- C4 witness: with the feed valve on and the drain valve off, an update
keeps at most one valve commanded. -/
theorem no_simultaneous_actuation_and_stop_reachable_witness :
    noBothValves (ColumnManager.Update {} false { feed_valve := true }
      150 150 5).1 :=
  no_simultaneous_actuation_and_stop_reachable.2.1 {} false { feed_valve := true }
    150 150 5 (by unfold noBothValves; decide)
